import Mathlib

/-!
Verification of the padaria REST application (`src/backend/server.js`).

The file shallowly embeds the two components of the source file:

* the Express API handlers for `GET /api/produtos`, `POST /api/produtos`
  and `DELETE /api/produtos/:id`, modelled as pure functions from the
  request data and the external store's reply to the HTTP response
  envelope plus the (optional) store call they issue;
* the browser client (`buscarProdutos`, `cadastrarProduto`,
  `excluirProduto`, `executarExclusao` and the form submit listener),
  modelled as functions from the inputs and the server replies to the
  updated in-memory record cache plus the trace of network requests and
  notifications.

JavaScript numbers are modelled as exact rationals (`ℚ`); the loose
numeric coercions of the source (`Number`, `parseFloat`, `parseInt`) are
embedded as executable parsers over the decimal-literal fragment, which
is the fragment this application ever exercises (no exponent or hex
forms appear anywhere in the source or its inputs).
-/

/-! ### JavaScript string and number coercions -/

/-- Whitespace characters trimmed by `String.prototype.trim` / skipped by
the numeric coercions (ASCII fragment). -/
def isWSChar (c : Char) : Bool := c == ' ' || c == '\t' || c == '\n' || c == '\r'

/-- Trim whitespace from both ends of a character list. -/
def trimChars (cs : List Char) : List Char :=
  ((cs.dropWhile isWSChar).reverse.dropWhile isWSChar).reverse

/-- JavaScript `s.trim()`. -/
def trimJS (s : String) : String := String.mk (trimChars s.toList)

/-- Value of a digit run, most significant first. -/
def digitsToNat (cs : List Char) : Nat := cs.foldl (fun a c => 10 * a + (c.toNat - 48)) 0

/-- Strip an optional leading sign, returning the sign as `1` or `-1`. -/
def splitSign : List Char → Int × List Char
  | '-' :: t => (-1, t)
  | '+' :: t => (1, t)
  | cs => (1, cs)

/-- Components of a parsed decimal literal: sign, integer-part value,
fraction-part value, number of fraction digits. Kept as integers so that
parsing stays kernel-computable; `decValue` gives the rational value. -/
def decValue (sg : Int) (ip fp fl : Nat) : ℚ :=
  (sg : ℚ) * ((ip : ℚ) + (fp : ℚ) / (10 : ℚ) ^ fl)

/-- Parse an entire character list as a decimal literal
(`[sign] digits [. digits]` or `[sign] . digits`); `none` when any
character is left over or no digit is present. -/
def decLitAll (cs : List Char) : Option (Int × Nat × Nat × Nat) :=
  let p := splitSign cs
  let ip := p.2.takeWhile Char.isDigit
  let r1 := p.2.dropWhile Char.isDigit
  match r1 with
  | [] => if ip.isEmpty then none else some (p.1, digitsToNat ip, 0, 0)
  | '.' :: fr =>
      let fp := fr.takeWhile Char.isDigit
      let r2 := fr.dropWhile Char.isDigit
      if !r2.isEmpty then none
      else if ip.isEmpty && fp.isEmpty then none
      else some (p.1, digitsToNat ip, digitsToNat fp, fp.length)
  | _ => none

/-- Parse the longest leading decimal literal of a character list;
`none` when no digit is found before the first non-numeric character. -/
def decLitLead (cs : List Char) : Option (Int × Nat × Nat × Nat) :=
  let p := splitSign cs
  let ip := p.2.takeWhile Char.isDigit
  let r1 := p.2.dropWhile Char.isDigit
  match r1 with
  | '.' :: fr =>
      let fp := fr.takeWhile Char.isDigit
      if ip.isEmpty && fp.isEmpty then none
      else some (p.1, digitsToNat ip, digitsToNat fp, fp.length)
  | _ => if ip.isEmpty then none else some (p.1, digitsToNat ip, 0, 0)

/-- JavaScript `Number(s)` on the decimal fragment: trims whitespace, maps
the empty string to `0`, otherwise requires the whole string to be a
decimal literal; `none` models `NaN`. -/
def strToNumber (s : String) : Option ℚ :=
  let cs := trimChars s.toList
  if cs.isEmpty then some 0
  else (decLitAll cs).map (fun t => decValue t.1 t.2.1 t.2.2.1 t.2.2.2)

/-- JavaScript `parseFloat(s)` on the decimal fragment: skips leading
whitespace and parses the longest leading decimal literal; `none` models
`NaN`. -/
def parseFloatJS (s : String) : Option ℚ :=
  (decLitLead (s.toList.dropWhile isWSChar)).map
    (fun t => decValue t.1 t.2.1 t.2.2.1 t.2.2.2)

/-- JavaScript `parseInt(s)` (radix 10): skips leading whitespace, an
optional sign, then takes the leading digit run, truncating any
fractional part; `none` models `NaN`. -/
def parseIntJS (s : String) : Option Int :=
  let p := splitSign (s.toList.dropWhile isWSChar)
  let ds := p.2.takeWhile Char.isDigit
  if ds.isEmpty then none else some (p.1 * (digitsToNat ds : Int))

/-- A JSON / JavaScript value as it can appear in a request-body field:
a string, a (finite) number, `null`, or an absent field (`undefined`). -/
inductive JSVal where
  | vStr (s : String)
  | vNum (q : ℚ)
  | vNull
  | vUndef
deriving DecidableEq

/-- JavaScript numeric coercion (`Number(v)`), as used by `isNaN(v)` and
by the comparison `v <= 0`; `none` models `NaN`. -/
def toNumber : JSVal → Option ℚ
  | .vStr s => strToNumber s
  | .vNum q => some q
  | .vNull => some 0
  | .vUndef => none

/-- JavaScript truthiness of a value (`!v` is its negation): the empty
string, the number `0`, `null` and `undefined` are falsy. -/
def truthy : JSVal → Bool
  | .vStr s => !s.isEmpty
  | .vNum q => q != 0
  | .vNull => false
  | .vUndef => false

/-- JavaScript `parseFloat(v)`: a number round-trips through its string
form unchanged (finite decimals), a string is parsed, anything else is
`NaN` (`none`). -/
def parseFloatVal : JSVal → Option ℚ
  | .vStr s => parseFloatJS s
  | .vNum q => some q
  | .vNull => none
  | .vUndef => none

/-- JavaScript `v <= 0` for a request-body value, coercing `v` with
`Number` as the source's comparison does; comparisons against `NaN` are
false. -/
def precoNonPositive (preco : JSVal) : Bool :=
  match toNumber preco with
  | some q => decide (q ≤ 0)
  | none => false

/-! ### Data model and external store -/

/-- A row of the `produtos` table, as echoed by the store: generated
`id` and `created_at`, the inserted `nome`, `preco`, `descricao`. The
timestamp is modelled as a natural number. -/
structure Produto where
  id : Nat
  nome : String
  preco : ℚ
  descricao : Option String
  created_at : Nat
deriving DecidableEq

/-- Reply of a Supabase call: either the data or an error carrying a
message (`error.message` in the source). -/
inductive StoreResult (α : Type) where
  | ok (val : α)
  | err (msg : String)
deriving DecidableEq

/-- Ordering used by the list endpoint: newest first
(`order('created_at', { ascending: false })`). -/
def createdDesc (a b : Produto) : Prop := b.created_at ≤ a.created_at

instance : DecidableRel createdDesc := fun a b => Nat.decLe b.created_at a.created_at

instance : IsTotal Produto createdDesc :=
  ⟨fun a b => Nat.le_total b.created_at a.created_at⟩

instance : IsTrans Produto createdDesc :=
  ⟨fun _ _ _ hab hbc => Nat.le_trans hbc hab⟩

/-- Modelled from the spec: the external store's
`select('*').order('created_at', { ascending: false })` query — all rows
of the table, sorted by creation time descending. The store itself is an
external dependency (Supabase), so its query semantics are modelled. -/
def produtosSelectDesc (db : List Produto) : List Produto :=
  List.insertionSort createdDesc db

/-- Modelled from the spec: the external store's
`delete().eq('id', key).select()` call — removes exactly the rows whose
`id` equals the key and returns them; an `eq` filter against `NaN`
(`none`) matches nothing. First component: remaining rows; second:
matched (deleted and returned) rows. -/
def storeDeleteEq (db : List Produto) (key : Option Int) : List Produto × List Produto :=
  match key with
  | none => (db, [])
  | some k => (db.filter (fun p => (p.id : Int) != k), db.filter (fun p => (p.id : Int) == k))

/-! ### API service handlers -/

/-- Response envelope of the list endpoint. -/
structure ListResp where
  status : Nat
  success : Bool
  message : Option String := none
  data : Option (List Produto) := none
  total : Option Nat := none
  error : Option String := none
deriving DecidableEq

/-- Response envelope of the create and delete endpoints. -/
structure ApiResp where
  status : Nat
  success : Bool
  message : Option String := none
  data : Option Produto := none
  error : Option String := none
deriving DecidableEq

/-- Row sent to the store by the create endpoint's insert call.
`preco` is `Option ℚ` because a JavaScript number may be `NaN`
(`none`). -/
structure InsertRow where
  nome : String
  preco : Option ℚ
  descricao : Option String
deriving DecidableEq

/-- The single store call issued by the delete endpoint: the value the
`eq('id', parseInt(id))` filter is keyed by (`none` models `NaN`). -/
structure DeleteCall where
  key : Option Int
deriving DecidableEq

/-- Handler of `GET /api/produtos` (`server.js` lines 61–98): queries the
store for all rows newest-first; on store error answers 400 with the
store's message; on success answers 200 with the rows and their count. -/
def getProdutos (db : StoreResult (List Produto)) : ListResp :=
  match db with
  | .err e =>
      { status := 400, success := false, message := some "Erro ao buscar produtos",
        error := some e }
  | .ok rows =>
      let data := produtosSelectDesc rows
      { status := 200, success := true, data := some data, total := some data.length }

/-- Handler of `POST /api/produtos` (`server.js` lines 102–164), as a
function of the destructured body fields and the store's reply to the
insert. Returns the response envelope and the row sent to the store
(`none` when validation rejected before any store call). The source
destructures `nome` as the string field of the JSON body; `descricao` is
a string or absent (`null`/missing). -/
def postProdutos (nome : String) (preco : JSVal) (descricao : Option String)
    (store : StoreResult Produto) : ApiResp × Option InsertRow :=
  if nome.isEmpty || !truthy preco then
    ({ status := 400, success := false, message := some "Nome e preço são obrigatórios" },
      none)
  else if (toNumber preco).isNone || precoNonPositive preco then
    ({ status := 400, success := false,
        message := some "Preço deve ser um número maior que zero" }, none)
  else
    let row : InsertRow :=
      { nome := trimJS nome
        preco := parseFloatVal preco
        descricao := match descricao with
          | some d => if d.isEmpty then none else some (trimJS d)
          | none => none }
    match store with
    | .err e =>
        ({ status := 400, success := false, message := some "Erro ao cadastrar produto",
            error := some e }, some row)
    | .ok p =>
        ({ status := 201, success := true,
            message := some "Produto cadastrado com sucesso!", data := some p }, some row)

/-- The 400 envelope the delete endpoint answers when the id fails the
`isNaN` validation. -/
def invalidIdResp : ApiResp :=
  { status := 400, success := false, message := some "ID deve ser um número válido" }

/-- Handler of `DELETE /api/produtos/:id` (`server.js` lines 168–224), as
a function of the path parameter and the store's reply (the matched
rows). Returns the response envelope and the store call issued (`none`
when validation rejected before any store call). -/
def deleteProdutoById (idStr : String) (store : StoreResult (List Produto)) :
    ApiResp × Option DeleteCall :=
  if (strToNumber idStr).isNone then
    (invalidIdResp, none)
  else
    let call : DeleteCall := { key := parseIntJS idStr }
    match store with
    | .err e =>
        ({ status := 400, success := false, message := some "Erro ao excluir produto",
            error := some e }, some call)
    | .ok [] =>
        ({ status := 404, success := false, message := some "Produto não encontrado" },
          some call)
    | .ok (p :: _) =>
        ({ status := 200, success := true,
            message := some "Produto excluído com sucesso!", data := some p }, some call)

/-! ### Client application -/

/-- Body the client posts on form submission (`dadosProduto`); `preco`
is `parseFloat` of the price input, so `none` models `NaN`; `descricao`
is `null` (`none`) when the trimmed description input is empty. -/
structure DadosProduto where
  nome : String
  preco : Option ℚ
  descricao : Option String
deriving DecidableEq

/-- A network request issued by the client via `fetch`. -/
inductive NetAction where
  | getList
  | postProduto (dados : DadosProduto)
  | deleteById (id : Nat)
deriving DecidableEq

/-- An observable client event: a network request or a notification
(`mostrarNotificacao` with its message and type). -/
inductive ClientEvent where
  | request (a : NetAction)
  | notify (msg : String) (tipo : String)
deriving DecidableEq

/-- Client `buscarProdutos` (lines 431–460): fetches the list; on
success replaces the in-memory `produtos` cache with the fetched data;
on failure keeps the cache and shows an error notification. Returns the
new cache and the event trace. -/
def buscarProdutos (res : StoreResult (List Produto)) (produtos : List Produto) :
    List Produto × List ClientEvent :=
  match res with
  | .ok data => (data, [.request .getList])
  | .err msg =>
      (produtos, [.request .getList,
        .notify ("Erro ao carregar produtos: " ++ msg) "erro"])

/-- Client `cadastrarProduto` (lines 466–497): posts the form data; on
success notifies, resets the form and re-fetches the list (the follow-up
fetch reply is `listRes`); on failure notifies and leaves the cache
untouched. -/
def cadastrarProduto (dados : DadosProduto) (createRes : StoreResult Produto)
    (listRes : StoreResult (List Produto)) (produtos : List Produto) :
    List Produto × List ClientEvent :=
  match createRes with
  | .ok _ =>
      let after := buscarProdutos listRes produtos
      (after.1, [.request (.postProduto dados),
        .notify "Produto cadastrado com sucesso!" "sucesso"] ++ after.2)
  | .err msg =>
      (produtos, [.request (.postProduto dados),
        .notify ("Erro ao cadastrar produto: " ++ msg) "erro"])

/-- Client `excluirProduto` (lines 503–527): issues the delete request;
on success notifies and re-fetches the list; on failure notifies and
leaves the cache untouched. -/
def excluirProduto (id : Nat) (delRes : StoreResult Produto)
    (listRes : StoreResult (List Produto)) (produtos : List Produto) :
    List Produto × List ClientEvent :=
  match delRes with
  | .ok _ =>
      let after := buscarProdutos listRes produtos
      (after.1, [.request (.deleteById id),
        .notify "Produto excluído com sucesso!" "sucesso"] ++ after.2)
  | .err msg =>
      (produtos, [.request (.deleteById id),
        .notify ("Erro ao excluir produto: " ++ msg) "erro"])

/-- Client `executarExclusao` (lines 606–611): runs the confirmed
deletion when a pending id is set, after closing the modal; does nothing
otherwise. -/
def executarExclusao (pending : Option Nat) (delRes : StoreResult Produto)
    (listRes : StoreResult (List Produto)) (produtos : List Produto) :
    List Produto × List ClientEvent :=
  match pending with
  | some id => excluirProduto id delRes listRes produtos
  | none => (produtos, [])

/-- The `dadosProduto` object built by the form submit listener
(lines 646–650): trimmed name, `parseFloat` of the price input, and the
trimmed description or `null` when that trim is empty. -/
def formDados (nomeIn precoIn descIn : String) : DadosProduto :=
  { nome := trimJS nomeIn
    preco := parseFloatJS precoIn
    descricao := if (trimJS descIn).isEmpty then none else some (trimJS descIn) }

/-- The client-side price guard `!dadosProduto.preco ||
dadosProduto.preco <= 0`: true for `NaN`, `0` and negatives. -/
def precoInvalido (p : Option ℚ) : Bool :=
  match p with
  | none => true
  | some q => decide (q ≤ 0)

/-- The form submit listener (lines 642–673): builds `dadosProduto`,
rejects an empty trimmed name or a non-positive/unparseable price with a
notification and no network traffic, otherwise runs
`cadastrarProduto`. -/
def formSubmit (nomeIn precoIn descIn : String) (createRes : StoreResult Produto)
    (listRes : StoreResult (List Produto)) (produtos : List Produto) :
    List Produto × List ClientEvent :=
  let dados := formDados nomeIn precoIn descIn
  if dados.nome.isEmpty then
    (produtos, [.notify "Nome do produto é obrigatório" "erro"])
  else if precoInvalido dados.preco then
    (produtos, [.notify "Preço deve ser maior que zero" "erro"])
  else
    cadastrarProduto dados createRes listRes produtos

/-- Concrete rows used by witnesses and counterexamples. -/
def sampleProduto : Produto :=
  { id := 1, nome := "Pão", preco := 5, descricao := none, created_at := 10 }

def sampleProduto7 : Produto :=
  { id := 7, nome := "Bolo", preco := 12, descricao := none, created_at := 3 }

def sampleProduto8 : Produto :=
  { id := 8, nome := "Café", preco := 4, descricao := some "quente", created_at := 4 }

/-! ### Helper lemmas: branch equations of the handlers -/

lemma postProdutos_missing (nome : String) (preco : JSVal) (descricao : Option String)
    (store : StoreResult Produto) (h : (nome.isEmpty || !truthy preco) = true) :
    postProdutos nome preco descricao store =
      ({ status := 400, success := false, message := some "Nome e preço são obrigatórios" },
        none) := by
  simp [postProdutos, h]

lemma postProdutos_badPreco (nome : String) (preco : JSVal) (descricao : Option String)
    (store : StoreResult Produto) (h1 : (nome.isEmpty || !truthy preco) = false)
    (h2 : ((toNumber preco).isNone || precoNonPositive preco) = true) :
    postProdutos nome preco descricao store =
      ({ status := 400, success := false,
          message := some "Preço deve ser um número maior que zero" }, none) := by
  simp [postProdutos, h1, h2]

lemma postProdutos_insert_ok (nome : String) (preco : JSVal) (descricao : Option String)
    (p : Produto) (h1 : (nome.isEmpty || !truthy preco) = false)
    (h2 : ((toNumber preco).isNone || precoNonPositive preco) = false) :
    postProdutos nome preco descricao (StoreResult.ok p) =
      ({ status := 201, success := true,
          message := some "Produto cadastrado com sucesso!", data := some p },
        some { nome := trimJS nome
               preco := parseFloatVal preco
               descricao := match descricao with
                 | some d => if d.isEmpty then none else some (trimJS d)
                 | none => none }) := by
  simp [postProdutos, h1, h2]

lemma postProdutos_insert_err (nome : String) (preco : JSVal) (descricao : Option String)
    (e : String) (h1 : (nome.isEmpty || !truthy preco) = false)
    (h2 : ((toNumber preco).isNone || precoNonPositive preco) = false) :
    postProdutos nome preco descricao (StoreResult.err e) =
      ({ status := 400, success := false, message := some "Erro ao cadastrar produto",
          error := some e },
        some { nome := trimJS nome
               preco := parseFloatVal preco
               descricao := match descricao with
                 | some d => if d.isEmpty then none else some (trimJS d)
                 | none => none }) := by
  simp [postProdutos, h1, h2]

lemma deleteProdutoById_nan (idStr : String) (store : StoreResult (List Produto))
    (h : (strToNumber idStr).isNone = true) :
    deleteProdutoById idStr store = (invalidIdResp, none) := by
  simp [deleteProdutoById, h]

lemma deleteProdutoById_err (idStr : String) (e : String)
    (h : (strToNumber idStr).isNone = false) :
    deleteProdutoById idStr (StoreResult.err e) =
      ({ status := 400, success := false, message := some "Erro ao excluir produto",
          error := some e }, some { key := parseIntJS idStr }) := by
  simp [deleteProdutoById, h]

lemma deleteProdutoById_zero_rows (idStr : String)
    (h : (strToNumber idStr).isNone = false) :
    deleteProdutoById idStr (StoreResult.ok []) =
      ({ status := 404, success := false, message := some "Produto não encontrado" },
        some { key := parseIntJS idStr }) := by
  simp [deleteProdutoById, h]

lemma deleteProdutoById_matched (idStr : String) (p : Produto) (rest : List Produto)
    (h : (strToNumber idStr).isNone = false) :
    deleteProdutoById idStr (StoreResult.ok (p :: rest)) =
      ({ status := 200, success := true,
          message := some "Produto excluído com sucesso!", data := some p },
        some { key := parseIntJS idStr }) := by
  simp [deleteProdutoById, h]

/-! ### Claims -/

/-- C1, counterexample: the claim is false as stated. The request with
name `" "` — empty after trimming — and price `5` passes the `!nome`
check (a whitespace-only string is truthy), so the create endpoint does
call the store, inserts the trimmed (empty) name, and answers 201. -/
theorem C1_counterexample :
    trimJS " " = "" ∧
    (postProdutos " " (JSVal.vNum 5) none (StoreResult.ok sampleProduto)).2 =
      some { nome := "", preco := some 5, descricao := none } ∧
    (postProdutos " " (JSVal.vNum 5) none (StoreResult.ok sampleProduto)).1.status = 201 := by
  refine ⟨by decide, by decide, by decide⟩

/-- C1 (amended): for every create request whose name is the empty
string, or whose price coerces to a number less than or equal to zero,
the create endpoint answers a 400 validation envelope and issues no
store call. (A whitespace-only name, although empty after trimming,
passes validation and is inserted with the empty trimmed name.) -/
theorem C1_create_rejects (nome : String) (preco : JSVal) (descricao : Option String)
    (store : StoreResult Produto)
    (h : nome = "" ∨ ∃ q, toNumber preco = some q ∧ q ≤ 0) :
    (postProdutos nome preco descricao store).2 = none ∧
    (postProdutos nome preco descricao store).1.status = 400 ∧
    (postProdutos nome preco descricao store).1.success = false := by
  rcases h with hn | ⟨q, hq, hle⟩
  · subst hn
    rw [postProdutos_missing "" preco descricao store
      (by rw [show "".isEmpty = true from rfl, Bool.true_or])]
    exact ⟨rfl, rfl, rfl⟩
  · by_cases hb : (nome.isEmpty || !truthy preco) = true
    · rw [postProdutos_missing nome preco descricao store hb]
      exact ⟨rfl, rfl, rfl⟩
    · have hb' : (nome.isEmpty || !truthy preco) = false := by
        revert hb; cases (nome.isEmpty || !truthy preco) <;> simp
      have hnp : precoNonPositive preco = true := by
        simp only [precoNonPositive, hq]
        exact decide_eq_true hle
      rw [postProdutos_badPreco nome preco descricao store hb' (by rw [hnp, Bool.or_true])]
      exact ⟨rfl, rfl, rfl⟩

theorem C1_witness :
    (postProdutos "" (JSVal.vNum 3) none (StoreResult.ok sampleProduto)).2 = none ∧
    (postProdutos "" (JSVal.vNum 3) none (StoreResult.ok sampleProduto)).1.status = 400 ∧
    (postProdutos "" (JSVal.vNum 3) none (StoreResult.ok sampleProduto)).1.success = false :=
  C1_create_rejects "" (JSVal.vNum 3) none (StoreResult.ok sampleProduto) (Or.inl rfl)

/-- C9: for every create request whose price is the number `0` or the
empty string (both falsy), the required-fields check fires first, so the
400 response carries the missing-fields message rather than the
non-positive-price message, and no store call is made. -/
theorem C9_falsy_price_required_message (nome : String) (descricao : Option String)
    (store : StoreResult Produto) (preco : JSVal)
    (h : preco = JSVal.vNum 0 ∨ preco = JSVal.vStr "") :
    (postProdutos nome preco descricao store).1 =
      { status := 400, success := false,
        message := some "Nome e preço são obrigatórios" } ∧
    (postProdutos nome preco descricao store).2 = none := by
  have ht : truthy preco = false := by
    rcases h with h | h <;> subst h <;> decide
  rw [postProdutos_missing nome preco descricao store (by rw [ht]; simp)]
  exact ⟨rfl, rfl⟩

theorem C9_witness :
    (postProdutos "Pão" (JSVal.vNum 0) none (StoreResult.ok sampleProduto)).1 =
      { status := 400, success := false,
        message := some "Nome e preço são obrigatórios" } ∧
    (postProdutos "Pão" (JSVal.vNum 0) none (StoreResult.ok sampleProduto)).2 = none :=
  C9_falsy_price_required_message "Pão" none (StoreResult.ok sampleProduto)
    (JSVal.vNum 0) (Or.inl rfl)

/-- C10: for every create request that passes validation, the row sent
to the store has `descricao` equal to `null` when the supplied
description is absent or falsy (the empty string), and equal to the
trimmed description otherwise; the client form likewise sends `null`
for a description input that is empty after trimming. -/
theorem C10_descricao_trim_or_null (nome : String) (preco : JSVal)
    (descricao : Option String) (store : StoreResult Produto) (row : InsertRow)
    (h : (postProdutos nome preco descricao store).2 = some row) :
    (descricao = none → row.descricao = none) ∧
    (∀ d, descricao = some d → d.isEmpty = true → row.descricao = none) ∧
    (∀ d, descricao = some d → d.isEmpty = false → row.descricao = some (trimJS d)) ∧
    ∀ nomeIn precoIn descIn : String, (trimJS descIn).isEmpty = true →
      (formDados nomeIn precoIn descIn).descricao = none := by
  have hrow : row.descricao = match descricao with
      | some d => if d.isEmpty then none else some (trimJS d)
      | none => none := by
    by_cases h1 : (nome.isEmpty || !truthy preco) = true
    · rw [postProdutos_missing nome preco descricao store h1] at h
      exact Option.noConfusion h
    · have h1' : (nome.isEmpty || !truthy preco) = false := by
        revert h1; cases (nome.isEmpty || !truthy preco) <;> simp
      by_cases h2 : ((toNumber preco).isNone || precoNonPositive preco) = true
      · rw [postProdutos_badPreco nome preco descricao store h1' h2] at h
        exact Option.noConfusion h
      · have h2' : ((toNumber preco).isNone || precoNonPositive preco) = false := by
          revert h2; cases ((toNumber preco).isNone || precoNonPositive preco) <;> simp
        cases store with
        | ok p =>
            rw [postProdutos_insert_ok nome preco descricao p h1' h2'] at h
            injection h with h
            subst h
            cases descricao <;> rfl
        | err e =>
            rw [postProdutos_insert_err nome preco descricao e h1' h2'] at h
            injection h with h
            subst h
            cases descricao <;> rfl
  refine ⟨?_, ?_, ?_, ?_⟩
  · intro hd; subst hd; exact hrow
  · intro d hd he; subst hd; rw [hrow]; simp [he]
  · intro d hd he; subst hd; rw [hrow]; simp [he]
  · intro nomeIn precoIn descIn hd
    simp [formDados, hd]

theorem C10_witness :
    (({ nome := trimJS "Pão", preco := some 5, descricao := none } : InsertRow).descricao =
      none) ∧
    (formDados "Bolo" "5" "  ").descricao = none := by
  have h := C10_descricao_trim_or_null "Pão" (JSVal.vNum 5) (some "")
    (StoreResult.ok sampleProduto)
    { nome := trimJS "Pão", preco := some 5, descricao := none } (by decide)
  exact ⟨h.2.1 "" rfl (by decide), h.2.2.2 "Bolo" "5" "  " (by decide)⟩

/-- C5: for the create input `{nome:"Pão", preco:"5.50"}`, the string
price passes validation, the row sent to the store carries `preco`
coerced to the number `5.5`, and the response echoes the store-created
record with a 201 status. -/
theorem C5_create_string_price_coerced (p : Produto) :
    postProdutos "Pão" (JSVal.vStr "5.50") none (StoreResult.ok p) =
      ({ status := 201, success := true,
          message := some "Produto cadastrado com sucesso!", data := some p },
        some { nome := "Pão", preco := some (5.5 : ℚ), descricao := none }) := by
  have h1 : ("Pão".isEmpty || !truthy (JSVal.vStr "5.50")) = false := by decide
  have hb : precoNonPositive (JSVal.vStr "5.50") = false := by
    show decide (decValue 1 5 50 2 ≤ 0) = false
    rw [decide_eq_false_iff_not]
    norm_num [decValue]
  have h2 : ((toNumber (JSVal.vStr "5.50")).isNone ||
      precoNonPositive (JSVal.vStr "5.50")) = false := by
    rw [hb, Bool.or_false]
    decide
  rw [postProdutos_insert_ok "Pão" (JSVal.vStr "5.50") none p h1 h2]
  have hnome : trimJS "Pão" = "Pão" := by decide
  have hpre : parseFloatVal (JSVal.vStr "5.50") = some (5.5 : ℚ) := by
    show some (decValue 1 5 50 2) = some (5.5 : ℚ)
    rw [show decValue 1 5 50 2 = (5.5 : ℚ) by norm_num [decValue]]
  rw [hnome, hpre]

/-- C2: for every delete request, the handler answers the 400
validation envelope exactly when the path id fails the numeric check
(`isNaN`); otherwise exactly one delete keyed only by `parseInt(id)` is
delegated to the store, answering 404 when zero rows matched and the
deleted record (the first matched row) otherwise. -/
theorem C2_delete_contract (idStr : String) (store : StoreResult (List Produto)) :
    ((deleteProdutoById idStr store).1 = invalidIdResp ↔
      (strToNumber idStr).isNone = true) ∧
    ((strToNumber idStr).isNone = true → (deleteProdutoById idStr store).2 = none) ∧
    ((strToNumber idStr).isNone = false →
      (deleteProdutoById idStr store).2 = some { key := parseIntJS idStr }) ∧
    ((strToNumber idStr).isNone = false → store = StoreResult.ok [] →
      (deleteProdutoById idStr store).1 =
        { status := 404, success := false, message := some "Produto não encontrado" }) ∧
    (∀ p rest, (strToNumber idStr).isNone = false → store = StoreResult.ok (p :: rest) →
      (deleteProdutoById idStr store).1 =
        { status := 200, success := true,
          message := some "Produto excluído com sucesso!", data := some p }) := by
  by_cases hn : (strToNumber idStr).isNone = true
  · rw [deleteProdutoById_nan idStr store hn]
    refine ⟨by simp [hn], fun _ => rfl, fun hf => ?_, fun hf _ => ?_,
      fun p rest hf _ => ?_⟩ <;> rw [hn] at hf <;> exact Bool.noConfusion hf
  · have hn' : (strToNumber idStr).isNone = false := by
      revert hn; cases (strToNumber idStr).isNone <;> simp
    cases store with
    | err e =>
        rw [deleteProdutoById_err idStr e hn']
        refine ⟨?_, ?_, fun _ => rfl, fun _ hst => StoreResult.noConfusion hst,
          fun p rest _ hst => StoreResult.noConfusion hst⟩
        · rw [hn']
          simp [invalidIdResp]
        · intro hf; rw [hn'] at hf; exact Bool.noConfusion hf
    | ok rows =>
        cases rows with
        | nil =>
            rw [deleteProdutoById_zero_rows idStr hn']
            refine ⟨?_, ?_, fun _ => rfl, fun _ _ => rfl, fun p rest _ hst => ?_⟩
            · rw [hn']
              simp [invalidIdResp]
            · intro hf; rw [hn'] at hf; exact Bool.noConfusion hf
            · injection hst with h2
              exact List.noConfusion h2
        | cons a as =>
            rw [deleteProdutoById_matched idStr a as hn']
            refine ⟨?_, ?_, fun _ => rfl, fun _ hst => ?_, fun p rest _ hst => ?_⟩
            · rw [hn']
              simp [invalidIdResp]
            · intro hf; rw [hn'] at hf; exact Bool.noConfusion hf
            · injection hst with h2
              exact List.noConfusion h2
            · injection hst with h2
              injection h2 with ha _
              rw [ha]

theorem C2_witness :
    (deleteProdutoById "7" (StoreResult.ok [sampleProduto])).2 =
      some { key := parseIntJS "7" } :=
  (C2_delete_contract "7" (StoreResult.ok [sampleProduto])).2.2.1 (by decide)

/-- C4: for every delete request whose id passes the numeric check and
for which the store matches zero rows, the response is the distinct
not-found envelope with status 404 — never a 500 server error. -/
theorem C4_delete_missing_not_found (idStr : String)
    (h : (strToNumber idStr).isNone = false) :
    (deleteProdutoById idStr (StoreResult.ok [])).1 =
      { status := 404, success := false, message := some "Produto não encontrado" } ∧
    (deleteProdutoById idStr (StoreResult.ok [])).1.status ≠ 500 := by
  rw [deleteProdutoById_zero_rows idStr h]
  exact ⟨rfl, by show (404 : Nat) ≠ 500; decide⟩

theorem C4_witness :
    (deleteProdutoById "99" (StoreResult.ok [])).1 =
      { status := 404, success := false, message := some "Produto não encontrado" } ∧
    (deleteProdutoById "99" (StoreResult.ok [])).1.status ≠ 500 :=
  C4_delete_missing_not_found "99" (by decide)

/-- C8: for every delete request whose id is a numeric string — which
includes strings with a fractional part such as `"7.9"` — the
not-numeric validation passes (the response is never the invalid-id
envelope) and the store delete is keyed by the integer truncation
`parseInt(id)`; concretely `parseInt("7.9") = 7`, so in a store holding
ids 7 and 8 the request `"7.9"` deletes exactly the record with id 7. -/
theorem C8_fractional_id_truncation (idStr : String) (store : StoreResult (List Produto))
    (h : (strToNumber idStr).isNone = false) :
    (deleteProdutoById idStr store).1 ≠ invalidIdResp ∧
    (deleteProdutoById idStr store).2 = some { key := parseIntJS idStr } ∧
    parseIntJS "7.9" = some 7 ∧
    (storeDeleteEq [sampleProduto7, sampleProduto8] (parseIntJS "7.9")).2 =
      [sampleProduto7] ∧
    (storeDeleteEq [sampleProduto7, sampleProduto8] (parseIntJS "7.9")).1 =
      [sampleProduto8] := by
  refine ⟨?_, ?_, by decide, by decide, by decide⟩
  · cases store with
    | err e =>
        rw [deleteProdutoById_err idStr e h]
        simp [invalidIdResp]
    | ok rows =>
        cases rows with
        | nil =>
            rw [deleteProdutoById_zero_rows idStr h]
            simp [invalidIdResp]
        | cons a as =>
            rw [deleteProdutoById_matched idStr a as h]
            simp [invalidIdResp]
  · cases store with
    | err e => rw [deleteProdutoById_err idStr e h]
    | ok rows =>
        cases rows with
        | nil => rw [deleteProdutoById_zero_rows idStr h]
        | cons a as => rw [deleteProdutoById_matched idStr a as h]

theorem C8_witness :
    (deleteProdutoById "7.9" (StoreResult.ok [sampleProduto7])).2 =
      some { key := some 7 } := by
  have h := (C8_fractional_id_truncation "7.9" (StoreResult.ok [sampleProduto7])
    (by decide)).2.1
  exact h.trans (by decide)

/-- C3: for every successful list request, the 200 response carries all
stored records (a permutation of the table) ordered by creation time
descending, and a `total` field equal to the number of returned
records; on a store error it answers a 400 envelope carrying the
store's error message. -/
theorem C3_list_contract :
    (∀ rows, getProdutos (StoreResult.ok rows) =
        { status := 200, success := true, data := some (produtosSelectDesc rows),
          total := some (produtosSelectDesc rows).length } ∧
      (produtosSelectDesc rows).Perm rows ∧
      List.Sorted createdDesc (produtosSelectDesc rows)) ∧
    (∀ msg, getProdutos (StoreResult.err msg) =
        { status := 400, success := false, message := some "Erro ao buscar produtos",
          error := some msg }) := by
  refine ⟨fun rows => ⟨rfl, ?_, ?_⟩, fun msg => rfl⟩
  · exact List.perm_insertionSort createdDesc rows
  · exact List.sorted_insertionSort createdDesc rows

/-- C6: for every form submission whose name is empty after trimming or
whose price input does not parse to a positive number, the client shows
a single validation notification, issues no network request, and leaves
the record cache untouched. -/
theorem C6_form_validation_blocks (nomeIn precoIn descIn : String)
    (createRes : StoreResult Produto) (listRes : StoreResult (List Produto))
    (produtos : List Produto)
    (h : (trimJS nomeIn).isEmpty = true ∨ precoInvalido (parseFloatJS precoIn) = true) :
    (∃ msg, (formSubmit nomeIn precoIn descIn createRes listRes produtos).2 =
      [ClientEvent.notify msg "erro"]) ∧
    (∀ a, ClientEvent.request a ∉
      (formSubmit nomeIn precoIn descIn createRes listRes produtos).2) ∧
    (formSubmit nomeIn precoIn descIn createRes listRes produtos).1 = produtos := by
  by_cases hn : (trimJS nomeIn).isEmpty = true
  · have hr : formSubmit nomeIn precoIn descIn createRes listRes produtos =
        (produtos, [ClientEvent.notify "Nome do produto é obrigatório" "erro"]) := by
      simp [formSubmit, formDados, hn]
    rw [hr]
    refine ⟨⟨_, rfl⟩, ?_, rfl⟩
    intro a hmem
    simp at hmem
  · have hp : precoInvalido (parseFloatJS precoIn) = true := by
      rcases h with h | h
      · exact absurd h hn
      · exact h
    have hn' : (trimJS nomeIn).isEmpty = false := by
      revert hn; cases (trimJS nomeIn).isEmpty <;> simp
    have hr : formSubmit nomeIn precoIn descIn createRes listRes produtos =
        (produtos, [ClientEvent.notify "Preço deve ser maior que zero" "erro"]) := by
      simp [formSubmit, formDados, hn', hp]
    rw [hr]
    refine ⟨⟨_, rfl⟩, ?_, rfl⟩
    intro a hmem
    simp at hmem

theorem C6_witness :
    (∃ msg, (formSubmit "Bolo" "abc" "" (StoreResult.ok sampleProduto)
      (StoreResult.ok []) []).2 = [ClientEvent.notify msg "erro"]) ∧
    (∀ a, ClientEvent.request a ∉
      (formSubmit "Bolo" "abc" "" (StoreResult.ok sampleProduto)
        (StoreResult.ok []) []).2) ∧
    (formSubmit "Bolo" "abc" "" (StoreResult.ok sampleProduto)
      (StoreResult.ok []) []).1 = [] :=
  C6_form_validation_blocks "Bolo" "abc" "" (StoreResult.ok sampleProduto)
    (StoreResult.ok []) [] (Or.inr (by decide))

/-- C7: after every successful mutation the client re-fetches the full
list — the trace is exactly the mutation request, a success
notification, then a list request, and the new cache is the freshly
fetched server list, not an incremental edit of the old cache.
Confirming the pending deletion of id 7 issues the delete request for
id 7 followed, on success, by the list refresh. -/
theorem C7_mutations_refetch :
    (∀ dados p listData produtos,
      cadastrarProduto dados (StoreResult.ok p) (StoreResult.ok listData) produtos =
        (listData, [ClientEvent.request (NetAction.postProduto dados),
          ClientEvent.notify "Produto cadastrado com sucesso!" "sucesso",
          ClientEvent.request NetAction.getList])) ∧
    (∀ id p listData produtos,
      excluirProduto id (StoreResult.ok p) (StoreResult.ok listData) produtos =
        (listData, [ClientEvent.request (NetAction.deleteById id),
          ClientEvent.notify "Produto excluído com sucesso!" "sucesso",
          ClientEvent.request NetAction.getList])) ∧
    (∀ p listData produtos,
      executarExclusao (some 7) (StoreResult.ok p) (StoreResult.ok listData) produtos =
        (listData, [ClientEvent.request (NetAction.deleteById 7),
          ClientEvent.notify "Produto excluído com sucesso!" "sucesso",
          ClientEvent.request NetAction.getList])) :=
  ⟨fun _ _ _ _ => rfl, fun _ _ _ _ => rfl, fun _ _ _ => rfl⟩
